import Mathlib

/-!
# Verification of the amortization / maturity-classification core of `emprestimo.py`

Shallow embedding of the three core functions of `src/emprestimo.py`:

* `calcular_parcela` — fixed periodic payment (Price / French amortization);
* `gerar_tabela_amortizacao` — the period-by-period amortization schedule,
  with the rounding correction applied to the last row;
* `analisar_prazo_contabil` — classification of schedule rows into
  short-term (due within 12 months of a base date) and long-term buckets.

Numbers are embedded as exact rationals (`ℚ`).  Dates are embedded as a
calendar `Date` record; month addition models `pandas.DateOffset(months=k)`,
which advances the month and clamps the day-of-month to the last valid day
of the target month.  The Python code stores each row's date as a
`%d/%m/%Y`-formatted string and parses it back before comparing; that
round trip is the identity on calendar dates, so rows here carry the date
itself.  Python raises `ZeroDivisionError` on division by zero, while `ℚ`
division totalises it; `calcular_parcelaE` / `gerar_tabela_amortizacaoE`
are the error-aware embeddings making the raised exceptions explicit.
-/

namespace Emprestimo

/-- Monthly periodic rate: `taxa_mensal = taxa_juros_anual / 12 / 100`
(line 20 and line 28 of `emprestimo.py`). -/
def taxaMensal (taxa_juros_anual : ℚ) : ℚ :=
  taxa_juros_anual / 12 / 100

/-- Embedding of `calcular_parcela` (lines 19–24): straight-line payment when
the monthly rate is zero, otherwise the Price annuity formula. -/
def calcular_parcela (principal taxa_juros_anual : ℚ) (prazo_meses : ℕ) : ℚ :=
  let taxa_mensal := taxaMensal taxa_juros_anual
  if taxa_mensal = 0 then principal / (prazo_meses : ℚ)
  else
    principal * (taxa_mensal * (1 + taxa_mensal) ^ prazo_meses) /
      ((1 + taxa_mensal) ^ prazo_meses - 1)

/-- The only exception the arithmetic of `calcular_parcela` can raise in
Python: `ZeroDivisionError`.  The source defines no `InvalidInputError`
and performs no validation. -/
inductive PyError where
  | zeroDivisionError
deriving DecidableEq

/-- Error-aware embedding of `calcular_parcela`: Python float division
raises `ZeroDivisionError` when the divisor is zero, and the function body
contains no other failure point and no input validation. -/
def calcular_parcelaE (principal taxa_juros_anual : ℚ) (prazo_meses : ℕ) :
    Except PyError ℚ :=
  let taxa_mensal := taxaMensal taxa_juros_anual
  if taxa_mensal = 0 then
    if (prazo_meses : ℚ) = 0 then Except.error PyError.zeroDivisionError
    else Except.ok (principal / (prazo_meses : ℚ))
  else
    if (1 + taxa_mensal) ^ prazo_meses - 1 = 0 then
      Except.error PyError.zeroDivisionError
    else
      Except.ok (principal * (taxa_mensal * (1 + taxa_mensal) ^ prazo_meses) /
        ((1 + taxa_mensal) ^ prazo_meses - 1))

/-- Calendar date (year, month 1–12, day 1–31). -/
structure Date where
  year : ℤ
  month : ℕ
  day : ℕ
deriving DecidableEq

/-- Gregorian leap-year rule. -/
def isLeapYear (y : ℤ) : Bool :=
  (y % 4 == 0 && y % 100 != 0) || y % 400 == 0

/-- Number of days of month `m` of year `y`. -/
def daysInMonth (y : ℤ) (m : ℕ) : ℕ :=
  if m = 2 then (if isLeapYear y then 29 else 28)
  else if m = 4 ∨ m = 6 ∨ m = 9 ∨ m = 11 then 30
  else 31

/-- `pandas.DateOffset(months := k)` semantics: advance the month by `k`,
clamping the day-of-month to the last valid day of the target month. -/
def addMonths (d : Date) (k : ℕ) : Date :=
  let tot : ℕ := d.month - 1 + k
  let y : ℤ := d.year + (tot / 12 : ℕ)
  let m : ℕ := tot % 12 + 1
  { year := y, month := m, day := min d.day (daysInMonth y m) }

/-- Chronological order on dates (as `pandas` timestamp comparison). -/
def dateLe (a b : Date) : Bool :=
  decide (a.year < b.year ∨ (a.year = b.year ∧
    (a.month < b.month ∨ (a.month = b.month ∧ a.day ≤ b.day))))

/-- One row of the amortization table (the dict appended at lines 45–52). -/
structure ScheduleEntry where
  parcela : ℕ
  data : Date
  prestacao : ℚ
  juros : ℚ
  amortizacao : ℚ
  saldo_devedor : ℚ
deriving DecidableEq

/-- The loop body of `gerar_tabela_amortizacao` (lines 34–52): `i` is the
current period index, the second argument the number of iterations left
(`prazo_meses + 1 - i` at every call), the last the running balance. -/
def gerarFrom (taxa_mensal parcela : ℚ) (data_inicio : Date) (prazo_meses : ℕ) :
    ℕ → ℕ → ℚ → List ScheduleEntry
  | _, 0, _ => []
  | i, fuel + 1, saldo_devedor =>
    let data_parcela := addMonths data_inicio i
    let juros := saldo_devedor * taxa_mensal
    let amortizacao := parcela - juros
    let saldo1 := saldo_devedor - amortizacao
    let amortizacao2 := if i = prazo_meses then amortizacao + saldo1 else amortizacao
    let saldo2 : ℚ := if i = prazo_meses then 0 else saldo1
    { parcela := i, data := data_parcela, prestacao := parcela, juros := juros,
      amortizacao := amortizacao2, saldo_devedor := saldo2 } ::
      gerarFrom taxa_mensal parcela data_inicio prazo_meses (i + 1) fuel saldo2

/-- Embedding of `gerar_tabela_amortizacao` (lines 27–54). -/
def gerar_tabela_amortizacao (principal taxa_juros_anual : ℚ) (prazo_meses : ℕ)
    (data_inicio : Date) : List ScheduleEntry :=
  gerarFrom (taxaMensal taxa_juros_anual)
    (calcular_parcela principal taxa_juros_anual prazo_meses)
    data_inicio prazo_meses 1 prazo_meses principal

/-- Error-aware embedding of `gerar_tabela_amortizacao`: the only failure
point is the delegated `calcular_parcela` call (line 29); the loop itself
divides by nothing. -/
def gerar_tabela_amortizacaoE (principal taxa_juros_anual : ℚ) (prazo_meses : ℕ)
    (data_inicio : Date) : Except PyError (List ScheduleEntry) :=
  (calcular_parcelaE principal taxa_juros_anual prazo_meses).map (fun parcela =>
    gerarFrom (taxaMensal taxa_juros_anual) parcela data_inicio prazo_meses 1
      prazo_meses principal)

/-- Embedding of `analisar_prazo_contabil` (lines 57–67): rows due up to
`data_base + 12` months are short-term (`curto_prazo`), the rest long-term
(`longo_prazo`); pandas boolean-mask filtering keeps the original row
order, i.e. it is `List.filter`. -/
def analisar_prazo_contabil (df : List ScheduleEntry) (data_base : Date) :
    List ScheduleEntry × List ScheduleEntry :=
  let data_limite := addMonths data_base 12
  (df.filter (fun e => dateLe e.data data_limite),
   df.filter (fun e => !dateLe e.data data_limite))

/-- `curto_prazo['Amortização'].sum()` (lines 142, 150). -/
def somaAmortizacao (l : List ScheduleEntry) : ℚ :=
  (l.map (fun e => e.amortizacao)).sum

/-- `curto_prazo['Juros'].sum()` (lines 143, 151). -/
def somaJuros (l : List ScheduleEntry) : ℚ :=
  (l.map (fun e => e.juros)).sum

/-- Closed-form running balance after `i` periods: the loop recurrence
`saldo ← saldo * (1 + t) - parcela`, started at the principal.  Used only
to state characterization lemmas about `gerarFrom`. -/
def saldoAt (taxa_mensal parcela principal : ℚ) : ℕ → ℚ
  | 0 => principal
  | i + 1 => saldoAt taxa_mensal parcela principal i * (1 + taxa_mensal) - parcela

/-- The row produced for period `j` (`1 ≤ j ≤ prazo_meses`), expressed with
`saldoAt`; matches the dict of lines 45–52 after the final-row correction
of lines 41–43. -/
def entryAt (taxa_mensal parcela principal : ℚ) (data_inicio : Date)
    (prazo_meses : ℕ) (j : ℕ) : ScheduleEntry :=
  { parcela := j
    data := addMonths data_inicio j
    prestacao := parcela
    juros := saldoAt taxa_mensal parcela principal (j - 1) * taxa_mensal
    amortizacao :=
      if j = prazo_meses then saldoAt taxa_mensal parcela principal (j - 1)
      else parcela - saldoAt taxa_mensal parcela principal (j - 1) * taxa_mensal
    saldo_devedor :=
      if j = prazo_meses then 0 else saldoAt taxa_mensal parcela principal j }

/-! ## Characterization of the schedule rows -/

theorem saldoAt_step (t c P : ℚ) (j : ℕ) :
    saldoAt t c P j - (c - saldoAt t c P j * t) = saldoAt t c P (j + 1) := by
  simp only [saldoAt]
  ring

theorem gerarFrom_eq_map (t c P : ℚ) (d0 : Date) (n : ℕ) :
    ∀ fuel i, 1 ≤ i → i + fuel = n + 1 →
      gerarFrom t c d0 n i fuel (saldoAt t c P (i - 1)) =
        (List.range' i fuel).map (entryAt t c P d0 n) := by
  intro fuel
  induction fuel with
  | zero => intro i _ _; rfl
  | succ fuel ih =>
    intro i hi hin
    have hsucc : i - 1 + 1 = i := Nat.succ_pred_eq_of_pos hi
    have hstep : saldoAt t c P (i - 1) - (c - saldoAt t c P (i - 1) * t)
        = saldoAt t c P i := by
      rw [saldoAt_step, hsucc]
    simp only [gerarFrom, List.range'_succ, List.map_cons]
    refine congrArg₂ List.cons ?_ ?_
    · simp only [entryAt, ScheduleEntry.mk.injEq]
      refine ⟨trivial, trivial, trivial, trivial, ?_, ?_⟩
      · by_cases h : i = n
        · simp only [h, reduceIte]
          ring
        · simp only [h, reduceIte]
      · by_cases h : i = n
        · simp [h]
        · simp only [h, if_neg, reduceIte]
          exact hstep
    · rcases fuel with _ | fuel
      · rfl
      · have hne : i ≠ n := by omega
        simp only [hne, if_neg, reduceIte]
        rw [hstep]
        have : saldoAt t c P i = saldoAt t c P (i + 1 - 1) := by norm_num
        rw [this]
        exact ih (i + 1) (by omega) (by omega)

/-- The full schedule is the image of `entryAt` over the period indices
`1, …, prazo_meses`; this holds for all inputs, valid or not. -/
theorem gerar_tabela_eq_map (P r : ℚ) (n : ℕ) (d0 : Date) :
    gerar_tabela_amortizacao P r n d0 =
      (List.range' 1 n).map
        (entryAt (taxaMensal r) (calcular_parcela P r n) P d0 n) := by
  have h := gerarFrom_eq_map (taxaMensal r) (calcular_parcela P r n) P d0 n n 1
    le_rfl (by omega)
  simpa [gerar_tabela_amortizacao, saldoAt] using h

theorem length_gerar_tabela (P r : ℚ) (n : ℕ) (d0 : Date) :
    (gerar_tabela_amortizacao P r n d0).length = n := by
  rw [gerar_tabela_eq_map]
  simp

/-- Telescoping: the amortization column of the loop started at balance `s`
sums to exactly `s`, thanks to the last-row correction. -/
theorem somaAmortizacao_gerarFrom (t c : ℚ) (d0 : Date) (n : ℕ) :
    ∀ fuel i s, 1 ≤ fuel → i + fuel = n + 1 →
      somaAmortizacao (gerarFrom t c d0 n i fuel s) = s := by
  intro fuel
  induction fuel with
  | zero => intro i s h _; omega
  | succ fuel ih =>
    intro i s _ hin
    rcases fuel with _ | fuel
    · have hi : i = n := by omega
      simp only [gerarFrom, hi, if_pos, reduceIte, somaAmortizacao, List.map_cons,
        List.map_nil, List.sum_cons, List.sum_nil]
      ring
    · have hne : i ≠ n := by omega
      have htail := ih (i + 1) (s - (c - s * t)) (by omega) (by omega)
      simp only [gerarFrom, hne, if_neg, reduceIte, somaAmortizacao, List.map_cons,
        List.sum_cons] at htail ⊢
      rw [htail]
      ring

/-! ## Order facts about the running balance -/

theorem taxaMensal_nonneg (r : ℚ) (hr : 0 ≤ r) : 0 ≤ taxaMensal r :=
  div_nonneg (div_nonneg hr (by norm_num)) (by norm_num)

theorem saldoAt_zero_rate (c P : ℚ) (i : ℕ) :
    saldoAt 0 c P i = P - i * c := by
  induction i with
  | zero => simp [saldoAt]
  | succ i ih =>
    simp only [saldoAt, ih]
    push_cast
    ring

theorem saldoAt_closed (t c P : ℚ) (n : ℕ)
    (hc : c * ((1 + t) ^ n - 1) = P * (t * (1 + t) ^ n)) :
    ∀ i, ((1 + t) ^ n - 1) * saldoAt t c P i
      = P * ((1 + t) ^ n - (1 + t) ^ i) := by
  intro i
  induction i with
  | zero =>
    simp only [saldoAt, pow_zero]
    ring
  | succ i ih =>
    simp only [saldoAt, pow_succ]
    calc ((1 + t) ^ n - 1) * (saldoAt t c P i * (1 + t) - c)
        = (1 + t) * (((1 + t) ^ n - 1) * saldoAt t c P i)
            - c * ((1 + t) ^ n - 1) := by ring
      _ = (1 + t) * (P * ((1 + t) ^ n - (1 + t) ^ i)) - P * (t * (1 + t) ^ n) := by
          rw [ih, hc]
      _ = P * ((1 + t) ^ n - (1 + t) ^ i * (1 + t)) := by ring

theorem calcular_parcela_zero_rate (P r : ℚ) (n : ℕ) (h0 : taxaMensal r = 0) :
    calcular_parcela P r n = P / (n : ℚ) := by
  simp [calcular_parcela, h0]

theorem calcular_parcela_spec_pos (P r : ℚ) (n : ℕ) (hne : taxaMensal r ≠ 0)
    (hA : (1 + taxaMensal r) ^ n - 1 ≠ 0) :
    calcular_parcela P r n * ((1 + taxaMensal r) ^ n - 1)
      = P * (taxaMensal r * (1 + taxaMensal r) ^ n) := by
  simp only [calcular_parcela, hne, reduceIte]
  exact div_mul_cancel₀ _ hA

theorem annuity_denom_pos (r : ℚ) (n : ℕ) (hr : 0 ≤ r) (hn : 1 ≤ n)
    (hne : taxaMensal r ≠ 0) : 0 < (1 + taxaMensal r) ^ n - 1 := by
  have htpos : 0 < taxaMensal r := lt_of_le_of_ne (taxaMensal_nonneg r hr)
    (Ne.symm hne)
  have h1 : (1 : ℚ) < 1 + taxaMensal r := by linarith
  have := one_lt_pow₀ h1 (by omega : n ≠ 0)
  linarith

theorem saldo_antitone (P r : ℚ) (n : ℕ) (hP : 0 < P) (hr : 0 ≤ r) (hn : 1 ≤ n)
    (i : ℕ) :
    saldoAt (taxaMensal r) (calcular_parcela P r n) P (i + 1)
      ≤ saldoAt (taxaMensal r) (calcular_parcela P r n) P i := by
  by_cases h0 : taxaMensal r = 0
  · rw [calcular_parcela_zero_rate P r n h0, h0, saldoAt_zero_rate,
      saldoAt_zero_rate]
    have hq : 0 ≤ P / (n : ℚ) := div_nonneg hP.le (Nat.cast_nonneg n)
    push_cast
    nlinarith
  · have hA : 0 < (1 + taxaMensal r) ^ n - 1 := annuity_denom_pos r n hr hn h0
    have hclosed := saldoAt_closed (taxaMensal r) (calcular_parcela P r n) P n
      (calcular_parcela_spec_pos P r n h0 hA.ne')
    have hpow : (1 + taxaMensal r) ^ i ≤ (1 + taxaMensal r) ^ (i + 1) := by
      have h1 : (1 : ℚ) ≤ 1 + taxaMensal r := by
        have := taxaMensal_nonneg r hr
        linarith
      exact pow_le_pow_right₀ h1 (by omega)
    have key : ((1 + taxaMensal r) ^ n - 1)
          * saldoAt (taxaMensal r) (calcular_parcela P r n) P (i + 1)
        ≤ ((1 + taxaMensal r) ^ n - 1)
          * saldoAt (taxaMensal r) (calcular_parcela P r n) P i := by
      rw [hclosed (i + 1), hclosed i]
      nlinarith
    exact le_of_mul_le_mul_left key hA

theorem saldo_nonneg (P r : ℚ) (n : ℕ) (hP : 0 < P) (hr : 0 ≤ r) (hn : 1 ≤ n)
    (i : ℕ) (hin : i ≤ n) :
    0 ≤ saldoAt (taxaMensal r) (calcular_parcela P r n) P i := by
  by_cases h0 : taxaMensal r = 0
  · rw [calcular_parcela_zero_rate P r n h0, h0, saldoAt_zero_rate]
    have hncast : (0 : ℚ) < (n : ℚ) := by
      exact_mod_cast Nat.lt_of_lt_of_le Nat.zero_lt_one hn
    have hicast : (i : ℚ) ≤ (n : ℚ) := by exact_mod_cast hin
    have hmul : (i : ℚ) * (P / (n : ℚ)) ≤ (n : ℚ) * (P / (n : ℚ)) :=
      mul_le_mul_of_nonneg_right hicast (div_nonneg hP.le hncast.le)
    have hcancel : (n : ℚ) * (P / (n : ℚ)) = P := mul_div_cancel₀ P hncast.ne'
    linarith
  · have hA : 0 < (1 + taxaMensal r) ^ n - 1 := annuity_denom_pos r n hr hn h0
    have hclosed := saldoAt_closed (taxaMensal r) (calcular_parcela P r n) P n
      (calcular_parcela_spec_pos P r n h0 hA.ne')
    have h1 : (1 : ℚ) ≤ 1 + taxaMensal r := by
      have := taxaMensal_nonneg r hr
      linarith
    have hpow : (1 + taxaMensal r) ^ i ≤ (1 + taxaMensal r) ^ n :=
      pow_le_pow_right₀ h1 hin
    have key : ((1 + taxaMensal r) ^ n - 1) * 0
        ≤ ((1 + taxaMensal r) ^ n - 1)
          * saldoAt (taxaMensal r) (calcular_parcela P r n) P i := by
      rw [hclosed i, mul_zero]
      nlinarith
    exact le_of_mul_le_mul_left key hA

/-! ## Claim theorems -/

/-- C1: for every input with `principal > 0`, `termPeriods ≥ 1` and
`annualRatePercent ≥ 0`, `calcular_parcela` returns `principal / termPeriods`
when the periodic rate `annualRatePercent/12/100` is exactly zero, and
otherwise the standard annuity value
`principal * t * (1+t)^n / ((1+t)^n - 1)` with `t` the periodic rate. -/
theorem parcela_formula (P r : ℚ) (n : ℕ) (_hP : 0 < P) (_hr : 0 ≤ r)
    (_hn : 1 ≤ n) :
    (taxaMensal r = 0 → calcular_parcela P r n = P / (n : ℚ)) ∧
    (taxaMensal r ≠ 0 → calcular_parcela P r n
      = P * taxaMensal r * (1 + taxaMensal r) ^ n
        / ((1 + taxaMensal r) ^ n - 1)) := by
  constructor
  · intro h0
    exact calcular_parcela_zero_rate P r n h0
  · intro hne
    simp only [calcular_parcela, hne, reduceIte]
    ring

/-- Witness for C1 at `principal = 100`, `rate = 12`, `term = 36`. -/
theorem parcela_formula_witness :
    (0 : ℚ) < 100 ∧ (0 : ℚ) ≤ 12 ∧ 1 ≤ 36 ∧
    ((taxaMensal 12 = 0 → calcular_parcela 100 12 36 = 100 / (36 : ℚ)) ∧
     (taxaMensal 12 ≠ 0 → calcular_parcela 100 12 36
       = 100 * taxaMensal 12 * (1 + taxaMensal 12) ^ 36
         / ((1 + taxaMensal 12) ^ 36 - 1))) :=
  ⟨by norm_num, by norm_num, by norm_num,
    parcela_formula 100 12 36 (by norm_num) (by norm_num) (by norm_num)⟩

/-- C2: for every valid `LoanTerms` the schedule has exactly `termPeriods`
entries and the amortization column sums exactly to the principal; moreover
every non-final entry is uncorrected (`amortizacao = prestacao - juros`),
so the balancing correction sits in the last entry only. -/
theorem schedule_length_principal_sum (P r : ℚ) (n : ℕ) (d0 : Date)
    (_hP : 0 < P) (_hr : 0 ≤ r) (hn : 1 ≤ n) :
    (gerar_tabela_amortizacao P r n d0).length = n ∧
    somaAmortizacao (gerar_tabela_amortizacao P r n d0) = P ∧
    ∀ e ∈ gerar_tabela_amortizacao P r n d0, e.parcela ≠ n →
      e.amortizacao = e.prestacao - e.juros := by
  refine ⟨length_gerar_tabela P r n d0, ?_, ?_⟩
  · unfold gerar_tabela_amortizacao
    exact somaAmortizacao_gerarFrom _ _ d0 n n 1 P hn (by omega)
  · rw [gerar_tabela_eq_map]
    intro e he hne
    obtain ⟨j, hj, rfl⟩ := List.mem_map.mp he
    simp only [entryAt] at hne ⊢
    rw [if_neg hne]

/-- Witness for C2 at `principal = 1200`, `rate = 0`, `term = 12`. -/
theorem schedule_length_principal_sum_witness :
    (0 : ℚ) < 1200 ∧ (0 : ℚ) ≤ 0 ∧ 1 ≤ 12 ∧
    ((gerar_tabela_amortizacao 1200 0 12 ⟨2024, 1, 1⟩).length = 12 ∧
     somaAmortizacao (gerar_tabela_amortizacao 1200 0 12 ⟨2024, 1, 1⟩) = 1200 ∧
     ∀ e ∈ gerar_tabela_amortizacao 1200 0 12 ⟨2024, 1, 1⟩, e.parcela ≠ 12 →
       e.amortizacao = e.prestacao - e.juros) :=
  ⟨by norm_num, le_rfl, by norm_num,
    schedule_length_principal_sum 1200 0 12 ⟨2024, 1, 1⟩ (by norm_num) le_rfl
      (by norm_num)⟩

/-- C5 counterexample: the code performs no input validation at all.  At the
invalid input `principal = -100 ≤ 0` (zero rate, 12 periods) both functions
return normally instead of failing with `InvalidInputError`; indeed the
error-aware embedding shows that the only exception the code can ever
raise is `ZeroDivisionError`. -/
theorem no_invalid_input_error_counterexample :
    calcular_parcelaE (-100) 0 12 = Except.ok (-(25 : ℚ) / 3) ∧
    gerar_tabela_amortizacaoE (-100) 0 12 ⟨2024, 1, 1⟩ =
      Except.ok (gerar_tabela_amortizacao (-100) 0 12 ⟨2024, 1, 1⟩) := by
  have h1 : calcular_parcelaE (-100) 0 12 = Except.ok (-(25 : ℚ) / 3) := by
    norm_num [calcular_parcelaE, taxaMensal]
  have h2 : calcular_parcela (-100) 0 12 = -(25 : ℚ) / 3 := by
    norm_num [calcular_parcela, taxaMensal]
  refine ⟨h1, ?_⟩
  simp only [gerar_tabela_amortizacaoE, h1, Except.map,
    gerar_tabela_amortizacao, h2]

/-- C5 amended: neither function validates its inputs and no
`InvalidInputError` exists.  For every principal (of any sign), every
`annualRatePercent ≥ 0` and every `termPeriods ≥ 1` both functions return
normally; `termPeriods = 0` instead fails with `ZeroDivisionError`, raised
inside `calcular_parcela` before any schedule row is produced. -/
theorem no_validation_behavior (P r : ℚ) (n : ℕ) (d0 : Date)
    (hr : 0 ≤ r) (hn : 1 ≤ n) :
    calcular_parcelaE P r n = Except.ok (calcular_parcela P r n) ∧
    gerar_tabela_amortizacaoE P r n d0 =
      Except.ok (gerar_tabela_amortizacao P r n d0) ∧
    calcular_parcelaE P r 0 = Except.error PyError.zeroDivisionError ∧
    gerar_tabela_amortizacaoE P r 0 d0 =
      Except.error PyError.zeroDivisionError := by
  have hok : calcular_parcelaE P r n = Except.ok (calcular_parcela P r n) := by
    by_cases h0 : taxaMensal r = 0
    · have hne : ((n : ℚ)) ≠ 0 := Nat.cast_ne_zero.mpr (by omega)
      simp [calcular_parcelaE, calcular_parcela, h0, hne]
    · have hA : (1 + taxaMensal r) ^ n - 1 ≠ 0 :=
        (annuity_denom_pos r n hr hn h0).ne'
      simp [calcular_parcelaE, calcular_parcela, h0, hA]
  have herr : calcular_parcelaE P r 0 = Except.error PyError.zeroDivisionError := by
    by_cases h0 : taxaMensal r = 0
    · simp [calcular_parcelaE, h0]
    · simp [calcular_parcelaE, h0]
  refine ⟨hok, ?_, herr, ?_⟩
  · simp only [gerar_tabela_amortizacaoE, hok, Except.map,
      gerar_tabela_amortizacao]
  · simp only [gerar_tabela_amortizacaoE, herr, Except.map]

/-- Witness for the amended C5, applied at the (spec-invalid) principal
`-5`, rate `0`, term `3`: the hypotheses constrain only rate and term. -/
theorem no_validation_behavior_witness :
    (0 : ℚ) ≤ 0 ∧ 1 ≤ 3 ∧
    (calcular_parcelaE (-5) 0 3 = Except.ok (calcular_parcela (-5) 0 3) ∧
     gerar_tabela_amortizacaoE (-5) 0 3 ⟨2024, 1, 1⟩ =
       Except.ok (gerar_tabela_amortizacao (-5) 0 3 ⟨2024, 1, 1⟩) ∧
     calcular_parcelaE (-5) 0 0 = Except.error PyError.zeroDivisionError ∧
     gerar_tabela_amortizacaoE (-5) 0 0 ⟨2024, 1, 1⟩ =
       Except.error PyError.zeroDivisionError) :=
  ⟨le_rfl, by norm_num,
    no_validation_behavior (-5) 0 3 ⟨2024, 1, 1⟩ le_rfl (by norm_num)⟩

/-- C8: classifying an empty schedule does not fail: it returns two empty
buckets, and the per-bucket amortization and interest totals of an empty
bucket are zero, for any base date. -/
theorem empty_schedule_classification (base : Date) :
    analisar_prazo_contabil [] base = ([], []) ∧
    somaAmortizacao (analisar_prazo_contabil [] base).1 = 0 ∧
    somaJuros (analisar_prazo_contabil [] base).1 = 0 ∧
    somaAmortizacao (analisar_prazo_contabil [] base).2 = 0 ∧
    somaJuros (analisar_prazo_contabil [] base).2 = 0 :=
  ⟨rfl, rfl, rfl, rfl, rfl⟩

/-- C9: the stored payment (`Prestação`) is the same `calcular_parcela`
value in every schedule entry, the final one included — the last-row
correction touches only `Amortização` and `Saldo Devedor`; the interest
column likewise always equals running balance times monthly rate. -/
theorem payment_uniform (P r : ℚ) (n : ℕ) (d0 : Date) :
    ∀ e ∈ gerar_tabela_amortizacao P r n d0,
      e.prestacao = calcular_parcela P r n ∧
      e.juros = saldoAt (taxaMensal r) (calcular_parcela P r n) P
        (e.parcela - 1) * taxaMensal r := by
  rw [gerar_tabela_eq_map]
  intro e he
  obtain ⟨j, hj, rfl⟩ := List.mem_map.mp he
  exact ⟨rfl, rfl⟩

/-- Witness for C9: the first row of the interest-free 2-period schedule
started on 2024-01-31. -/
theorem payment_uniform_witness :
    (⟨1, ⟨2024, 2, 29⟩, 600, 0, 600, 600⟩ : ScheduleEntry) ∈
      gerar_tabela_amortizacao 1200 0 2 ⟨2024, 1, 31⟩ ∧
    ((⟨1, ⟨2024, 2, 29⟩, 600, 0, 600, 600⟩ : ScheduleEntry).prestacao
        = calcular_parcela 1200 0 2 ∧
      (⟨1, ⟨2024, 2, 29⟩, 600, 0, 600, 600⟩ : ScheduleEntry).juros
        = saldoAt (taxaMensal 0) (calcular_parcela 1200 0 2) 1200
            ((⟨1, ⟨2024, 2, 29⟩, 600, 0, 600, 600⟩ : ScheduleEntry).parcela - 1)
          * taxaMensal 0) := by
  have hlist : gerar_tabela_amortizacao 1200 0 2 ⟨2024, 1, 31⟩ =
      [⟨1, ⟨2024, 2, 29⟩, 600, 0, 600, 600⟩,
       ⟨2, ⟨2024, 3, 31⟩, 600, 0, 600, 0⟩] := by
    norm_num [gerar_tabela_amortizacao, gerarFrom, calcular_parcela, taxaMensal,
      addMonths, daysInMonth, isLeapYear]
  have hmem : (⟨1, ⟨2024, 2, 29⟩, 600, 0, 600, 600⟩ : ScheduleEntry) ∈
      gerar_tabela_amortizacao 1200 0 2 ⟨2024, 1, 31⟩ := by
    rw [hlist]
    exact List.Mem.head _
  exact ⟨hmem, payment_uniform 1200 0 2 ⟨2024, 1, 31⟩ _ hmem⟩

/-- C3: for every schedule and base date the two buckets returned by
`analisar_prazo_contabil` are subsequences of the schedule, together they
are a permutation of it, no entry lands in both, every entry lands in one,
and (when the input is sorted by ascending `periodIndex`) each bucket stays
sorted by ascending `periodIndex`, i.e. keeps the input's relative order. -/
theorem classification_partition (df : List ScheduleEntry) (base : Date)
    (hsort : df.Pairwise (fun a b => a.parcela < b.parcela)) :
    ((analisar_prazo_contabil df base).1 ++
        (analisar_prazo_contabil df base).2).Perm df ∧
    (analisar_prazo_contabil df base).1.Sublist df ∧
    (analisar_prazo_contabil df base).2.Sublist df ∧
    (∀ e, ¬(e ∈ (analisar_prazo_contabil df base).1 ∧
        e ∈ (analisar_prazo_contabil df base).2)) ∧
    (∀ e, e ∈ df ↔ e ∈ (analisar_prazo_contabil df base).1 ∨
        e ∈ (analisar_prazo_contabil df base).2) ∧
    (analisar_prazo_contabil df base).1.Pairwise
      (fun a b => a.parcela < b.parcela) ∧
    (analisar_prazo_contabil df base).2.Pairwise
      (fun a b => a.parcela < b.parcela) := by
  simp only [analisar_prazo_contabil]
  refine ⟨List.filter_append_perm _ df, List.filter_sublist df,
    List.filter_sublist df, ?_, ?_,
    List.Pairwise.sublist (List.filter_sublist df) hsort,
    List.Pairwise.sublist (List.filter_sublist df) hsort⟩
  · intro e hcon
    obtain ⟨h1, h2⟩ := hcon
    rw [List.mem_filter] at h1 h2
    simp [h1.2] at h2
  · intro e
    constructor
    · intro he
      by_cases hb : dateLe e.data (addMonths base 12) = true
      · exact Or.inl (List.mem_filter.mpr ⟨he, hb⟩)
      · have hb' : dateLe e.data (addMonths base 12) = false := by
          revert hb
          cases dateLe e.data (addMonths base 12) <;> simp
        exact Or.inr (List.mem_filter.mpr ⟨he, by simp [hb']⟩)
    · intro h
      rcases h with h | h
      · exact (List.mem_filter.mp h).1
      · exact (List.mem_filter.mp h).1

/-- Witness for C3 on a concrete two-row schedule, one row on each side of
the cutoff date. -/
theorem classification_partition_witness :
    ([(⟨1, ⟨2024, 2, 1⟩, 100, 12, 88, 912⟩ : ScheduleEntry),
      ⟨2, ⟨2026, 3, 1⟩, 100, 9, 91, 821⟩].Pairwise
        (fun a b => a.parcela < b.parcela)) ∧
    (((analisar_prazo_contabil
          [⟨1, ⟨2024, 2, 1⟩, 100, 12, 88, 912⟩,
           ⟨2, ⟨2026, 3, 1⟩, 100, 9, 91, 821⟩] ⟨2024, 1, 1⟩).1 ++
        (analisar_prazo_contabil
          [⟨1, ⟨2024, 2, 1⟩, 100, 12, 88, 912⟩,
           ⟨2, ⟨2026, 3, 1⟩, 100, 9, 91, 821⟩] ⟨2024, 1, 1⟩).2).Perm
      [⟨1, ⟨2024, 2, 1⟩, 100, 12, 88, 912⟩,
       ⟨2, ⟨2026, 3, 1⟩, 100, 9, 91, 821⟩] ∧
     (analisar_prazo_contabil
        [⟨1, ⟨2024, 2, 1⟩, 100, 12, 88, 912⟩,
         ⟨2, ⟨2026, 3, 1⟩, 100, 9, 91, 821⟩] ⟨2024, 1, 1⟩).1.Sublist
      [⟨1, ⟨2024, 2, 1⟩, 100, 12, 88, 912⟩,
       ⟨2, ⟨2026, 3, 1⟩, 100, 9, 91, 821⟩] ∧
     (analisar_prazo_contabil
        [⟨1, ⟨2024, 2, 1⟩, 100, 12, 88, 912⟩,
         ⟨2, ⟨2026, 3, 1⟩, 100, 9, 91, 821⟩] ⟨2024, 1, 1⟩).2.Sublist
      [⟨1, ⟨2024, 2, 1⟩, 100, 12, 88, 912⟩,
       ⟨2, ⟨2026, 3, 1⟩, 100, 9, 91, 821⟩] ∧
     (∀ e, ¬(e ∈ (analisar_prazo_contabil
          [⟨1, ⟨2024, 2, 1⟩, 100, 12, 88, 912⟩,
           ⟨2, ⟨2026, 3, 1⟩, 100, 9, 91, 821⟩] ⟨2024, 1, 1⟩).1 ∧
        e ∈ (analisar_prazo_contabil
          [⟨1, ⟨2024, 2, 1⟩, 100, 12, 88, 912⟩,
           ⟨2, ⟨2026, 3, 1⟩, 100, 9, 91, 821⟩] ⟨2024, 1, 1⟩).2)) ∧
     (∀ e, e ∈ [(⟨1, ⟨2024, 2, 1⟩, 100, 12, 88, 912⟩ : ScheduleEntry),
          ⟨2, ⟨2026, 3, 1⟩, 100, 9, 91, 821⟩] ↔
        e ∈ (analisar_prazo_contabil
          [⟨1, ⟨2024, 2, 1⟩, 100, 12, 88, 912⟩,
           ⟨2, ⟨2026, 3, 1⟩, 100, 9, 91, 821⟩] ⟨2024, 1, 1⟩).1 ∨
        e ∈ (analisar_prazo_contabil
          [⟨1, ⟨2024, 2, 1⟩, 100, 12, 88, 912⟩,
           ⟨2, ⟨2026, 3, 1⟩, 100, 9, 91, 821⟩] ⟨2024, 1, 1⟩).2) ∧
     (analisar_prazo_contabil
        [⟨1, ⟨2024, 2, 1⟩, 100, 12, 88, 912⟩,
         ⟨2, ⟨2026, 3, 1⟩, 100, 9, 91, 821⟩] ⟨2024, 1, 1⟩).1.Pairwise
      (fun a b => a.parcela < b.parcela) ∧
     (analisar_prazo_contabil
        [⟨1, ⟨2024, 2, 1⟩, 100, 12, 88, 912⟩,
         ⟨2, ⟨2026, 3, 1⟩, 100, 9, 91, 821⟩] ⟨2024, 1, 1⟩).2.Pairwise
      (fun a b => a.parcela < b.parcela)) := by
  have hsort : ([(⟨1, ⟨2024, 2, 1⟩, 100, 12, 88, 912⟩ : ScheduleEntry),
      ⟨2, ⟨2026, 3, 1⟩, 100, 9, 91, 821⟩].Pairwise
        (fun a b => a.parcela < b.parcela)) := by
    simp
  exact ⟨hsort, classification_partition _ ⟨2024, 1, 1⟩ hsort⟩

/-- C4: the classifier's cutoff is `baseDate` advanced by 12 calendar
months; a schedule entry lands in the short-term bucket exactly when its
due date is `≤` the cutoff and in the long-term bucket otherwise, and an
entry whose due date equals the cutoff is short-term (inclusive bound). -/
theorem cutoff_inclusive (df : List ScheduleEntry) (base : Date)
    (e : ScheduleEntry) (he : e ∈ df) :
    (e ∈ (analisar_prazo_contabil df base).1 ↔
      dateLe e.data (addMonths base 12) = true) ∧
    (e ∈ (analisar_prazo_contabil df base).2 ↔
      ¬dateLe e.data (addMonths base 12) = true) ∧
    (e.data = addMonths base 12 → e ∈ (analisar_prazo_contabil df base).1) := by
  have hrefl : ∀ d : Date, dateLe d d = true := by
    intro d
    simp [dateLe]
  simp only [analisar_prazo_contabil, List.mem_filter, Bool.not_eq_true',
    Bool.not_eq_true]
  refine ⟨⟨fun h => h.2, fun h => ⟨he, h⟩⟩,
    ⟨fun h => by simp [h.2], fun h => ⟨he, by simp [h]⟩⟩,
    fun h => ⟨he, by rw [h]; exact hrefl _⟩⟩

/-- Witness for C4: a one-row schedule whose single due date equals the
cutoff `2024-01-15 + 12` months `= 2025-01-15`. -/
theorem cutoff_inclusive_witness :
    ((⟨1, ⟨2025, 1, 15⟩, 100, 0, 100, 0⟩ : ScheduleEntry) ∈
      [(⟨1, ⟨2025, 1, 15⟩, 100, 0, 100, 0⟩ : ScheduleEntry)]) ∧
    (((⟨1, ⟨2025, 1, 15⟩, 100, 0, 100, 0⟩ : ScheduleEntry) ∈
        (analisar_prazo_contabil [⟨1, ⟨2025, 1, 15⟩, 100, 0, 100, 0⟩]
          ⟨2024, 1, 15⟩).1 ↔
      dateLe (⟨1, ⟨2025, 1, 15⟩, 100, 0, 100, 0⟩ : ScheduleEntry).data
        (addMonths ⟨2024, 1, 15⟩ 12) = true) ∧
     ((⟨1, ⟨2025, 1, 15⟩, 100, 0, 100, 0⟩ : ScheduleEntry) ∈
        (analisar_prazo_contabil [⟨1, ⟨2025, 1, 15⟩, 100, 0, 100, 0⟩]
          ⟨2024, 1, 15⟩).2 ↔
      ¬dateLe (⟨1, ⟨2025, 1, 15⟩, 100, 0, 100, 0⟩ : ScheduleEntry).data
        (addMonths ⟨2024, 1, 15⟩ 12) = true) ∧
     ((⟨1, ⟨2025, 1, 15⟩, 100, 0, 100, 0⟩ : ScheduleEntry).data
        = addMonths ⟨2024, 1, 15⟩ 12 →
      (⟨1, ⟨2025, 1, 15⟩, 100, 0, 100, 0⟩ : ScheduleEntry) ∈
        (analisar_prazo_contabil [⟨1, ⟨2025, 1, 15⟩, 100, 0, 100, 0⟩]
          ⟨2024, 1, 15⟩).1)) :=
  ⟨List.Mem.head _,
    cutoff_inclusive [⟨1, ⟨2025, 1, 15⟩, 100, 0, 100, 0⟩] ⟨2024, 1, 15⟩
      ⟨1, ⟨2025, 1, 15⟩, 100, 0, 100, 0⟩ (List.Mem.head _)⟩

/-- Adjacent-pair criterion for `Chain'` on an arithmetic index range. -/
theorem chain'_range' {S : ℕ → ℕ → Prop} :
    ∀ (m s : ℕ), (∀ j, s ≤ j → j + 1 < s + m → S j (j + 1)) →
      List.Chain' S (List.range' s m) := by
  intro m
  induction m with
  | zero => intro s _; simp
  | succ m ih =>
    intro s h
    rcases m with _ | m
    · simp
    · rw [List.range'_succ, List.range'_succ, List.chain'_cons]
      refine ⟨h s le_rfl (by omega), ?_⟩
      rw [← List.range'_succ]
      exact ih (s + 1) (fun j hj hjm => h j (by omega) (by omega))

/-- C6: for every valid `LoanTerms` the `Saldo Devedor` column is
non-increasing from each period to the next, and the entry with
`periodIndex = termPeriods` carries exactly zero balance. -/
theorem remaining_balance_monotone_zero_final (P r : ℚ) (n : ℕ) (d0 : Date)
    (hP : 0 < P) (hr : 0 ≤ r) (hn : 1 ≤ n) :
    List.Chain' (fun a b => b.saldo_devedor ≤ a.saldo_devedor)
      (gerar_tabela_amortizacao P r n d0) ∧
    ∀ e ∈ gerar_tabela_amortizacao P r n d0, e.parcela = n →
      e.saldo_devedor = 0 := by
  constructor
  · rw [gerar_tabela_eq_map, List.chain'_map]
    apply chain'_range'
    intro j hj hjm
    have hjn : j ≠ n := by omega
    simp only [entryAt, hjn, reduceIte]
    by_cases h : j + 1 = n
    · simp only [h, reduceIte]
      exact saldo_nonneg P r n hP hr hn j (by omega)
    · simp only [h, reduceIte, Nat.add_sub_cancel]
      exact saldo_antitone P r n hP hr hn j
  · rw [gerar_tabela_eq_map]
    intro e he hpar
    obtain ⟨j, hj, rfl⟩ := List.mem_map.mp he
    have hj' : j = n := hpar
    simp [entryAt, hj']

/-- Witness for C6 at `principal = 1200`, `rate = 0`, `term = 12`. -/
theorem remaining_balance_monotone_zero_final_witness :
    (0 : ℚ) < 1200 ∧ (0 : ℚ) ≤ 0 ∧ 1 ≤ 12 ∧
    (List.Chain' (fun a b => b.saldo_devedor ≤ a.saldo_devedor)
      (gerar_tabela_amortizacao 1200 0 12 ⟨2024, 1, 1⟩) ∧
     ∀ e ∈ gerar_tabela_amortizacao 1200 0 12 ⟨2024, 1, 1⟩, e.parcela = 12 →
       e.saldo_devedor = 0) :=
  ⟨by norm_num, le_rfl, by norm_num,
    remaining_balance_monotone_zero_final 1200 0 12 ⟨2024, 1, 1⟩ (by norm_num)
      le_rfl (by norm_num)⟩

/-- C7: at `principal = 100000`, `annualRatePercent = 12`, `termPeriods = 36`
the payment is `3321.43` up to a cent, and the first schedule row has
interest exactly `1000`, principal portion `2321.43` and remaining balance
`97678.57`, both up to a cent. -/
theorem example_scenario :
    |calcular_parcela 100000 12 36 - 3321.43| < 1 / 100 ∧
    ∃ e rest, gerar_tabela_amortizacao 100000 12 36 ⟨2024, 1, 1⟩ = e :: rest ∧
      e.juros = 1000 ∧ |e.amortizacao - 2321.43| < 1 / 100 ∧
      |e.saldo_devedor - 97678.57| < 1 / 100 := by
  constructor
  · norm_num [calcular_parcela, taxaMensal, abs_lt]
  · have hmap := gerar_tabela_eq_map 100000 12 36 ⟨2024, 1, 1⟩
    rw [show List.range' 1 36 = 1 :: List.range' 2 35 from rfl,
      List.map_cons] at hmap
    refine ⟨_, _, hmap, ?_, ?_, ?_⟩
    · norm_num [entryAt, saldoAt, taxaMensal]
    · norm_num [entryAt, saldoAt, taxaMensal, calcular_parcela, abs_lt]
    · norm_num [entryAt, saldoAt, taxaMensal, calcular_parcela, abs_lt]

/-- C10: schedule due dates and the classification cutoff share one
month-advance policy, clamping to the target month's last valid day
(2024-01-31 plus one month is 2024-02-29); every entry's due date is
`startDate + periodIndex` months, so with `baseDate = startDate` an entry
with `periodIndex = 12` is always classified short-term. -/
theorem month_advance_policy (P r : ℚ) (n : ℕ) (d0 : Date) (e : ScheduleEntry)
    (he : e ∈ gerar_tabela_amortizacao P r n d0) (h12 : e.parcela = 12) :
    addMonths ⟨2024, 1, 31⟩ 1 = ⟨2024, 2, 29⟩ ∧
    e.data = addMonths d0 e.parcela ∧
    e ∈ (analisar_prazo_contabil (gerar_tabela_amortizacao P r n d0) d0).1 := by
  have hdata : e.data = addMonths d0 e.parcela := by
    rw [gerar_tabela_eq_map] at he
    obtain ⟨j, hj, rfl⟩ := List.mem_map.mp he
    rfl
  refine ⟨by decide, hdata, ?_⟩
  simp only [analisar_prazo_contabil, List.mem_filter]
  refine ⟨he, ?_⟩
  rw [hdata, h12]
  simp [dateLe]

/-- Witness for C10: the 12th row of the interest-free 12-period schedule
started (and classified) on the month-end date 2024-01-31. -/
theorem month_advance_policy_witness :
    ((⟨12, ⟨2025, 1, 31⟩, 100, 0, 100, 0⟩ : ScheduleEntry) ∈
      gerar_tabela_amortizacao 1200 0 12 ⟨2024, 1, 31⟩ ∧
     (⟨12, ⟨2025, 1, 31⟩, 100, 0, 100, 0⟩ : ScheduleEntry).parcela = 12) ∧
    (addMonths ⟨2024, 1, 31⟩ 1 = ⟨2024, 2, 29⟩ ∧
     (⟨12, ⟨2025, 1, 31⟩, 100, 0, 100, 0⟩ : ScheduleEntry).data =
       addMonths ⟨2024, 1, 31⟩
         (⟨12, ⟨2025, 1, 31⟩, 100, 0, 100, 0⟩ : ScheduleEntry).parcela ∧
     (⟨12, ⟨2025, 1, 31⟩, 100, 0, 100, 0⟩ : ScheduleEntry) ∈
       (analisar_prazo_contabil
         (gerar_tabela_amortizacao 1200 0 12 ⟨2024, 1, 31⟩) ⟨2024, 1, 31⟩).1) := by
  have hlist : gerar_tabela_amortizacao 1200 0 12 ⟨2024, 1, 31⟩ =
      [⟨1, ⟨2024, 2, 29⟩, 100, 0, 100, 1100⟩,
       ⟨2, ⟨2024, 3, 31⟩, 100, 0, 100, 1000⟩,
       ⟨3, ⟨2024, 4, 30⟩, 100, 0, 100, 900⟩,
       ⟨4, ⟨2024, 5, 31⟩, 100, 0, 100, 800⟩,
       ⟨5, ⟨2024, 6, 30⟩, 100, 0, 100, 700⟩,
       ⟨6, ⟨2024, 7, 31⟩, 100, 0, 100, 600⟩,
       ⟨7, ⟨2024, 8, 31⟩, 100, 0, 100, 500⟩,
       ⟨8, ⟨2024, 9, 30⟩, 100, 0, 100, 400⟩,
       ⟨9, ⟨2024, 10, 31⟩, 100, 0, 100, 300⟩,
       ⟨10, ⟨2024, 11, 30⟩, 100, 0, 100, 200⟩,
       ⟨11, ⟨2024, 12, 31⟩, 100, 0, 100, 100⟩,
       ⟨12, ⟨2025, 1, 31⟩, 100, 0, 100, 0⟩] := by
    norm_num [gerar_tabela_amortizacao, gerarFrom, calcular_parcela, taxaMensal,
      addMonths, daysInMonth, isLeapYear]
  have hmem : (⟨12, ⟨2025, 1, 31⟩, 100, 0, 100, 0⟩ : ScheduleEntry) ∈
      gerar_tabela_amortizacao 1200 0 12 ⟨2024, 1, 31⟩ := by
    rw [hlist]
    norm_num
  exact ⟨⟨hmem, rfl⟩,
    month_advance_policy 1200 0 12 ⟨2024, 1, 31⟩ _ hmem rfl⟩

end Emprestimo
